import Mathlib

/-!
# Verification of wpaperd's per-surface state machine

Shallow embedding of `src/daemon/src/surface.rs`: the per-output `Surface`
controller of the wpaperd wallpaper daemon.  Pure state is modelled by Lean
structures; calls into external collaborators (the Wayland surface, the GPU
renderer, the calloop timer registry, the image picker's selection policy)
are recorded as an explicit list of `Effect`s.  Machine time (`Instant`) is a
`Nat` timestamp on a monotonic clock; `Duration` is a `Nat`; elapsed time is
truncated subtraction, matching the monotonic-clock guarantee `now ≥ instant`.
`loading_image_tries` is a Rust `u8`, so its increment is taken mod 2^8.

The results of the external calls that the control flow branches on —
`ImagePicker::get_image_from_path`, `Renderer::update_transition_status`, the
monotonic clock — are inputs (`Env`).  The successive results of
`ImageLoader::background_load` are a list of `ImageLoaderStatus` consumed one
per call; a function returns `none` when the supplied list is exhausted
mid-loop (the model ran out of decoder answers), and otherwise mirrors the
source control flow.  External fallible calls whose failure merely propagates
an error out of the function under scrutiny (EGL `make_current`,
`Renderer::load_wallpaper`, timer insertion) are modelled as succeeding: no
claim concerns those error paths.
-/

namespace Wpaperd

/-- `EventSource` from `surface.rs`: the rotation-timer scheduling state.
`Paused` carries the duration that was left on the previous timer. -/
inductive EventSource where
  | NotSet : EventSource
  | Running (token : Nat) : EventSource
  | Paused (remaining : Nat) : EventSource
deriving DecidableEq, Repr

/-- `ImageLoaderStatus` returned by `ImageLoader::background_load`.
The decoded image data is abstracted to a `Nat` handle. -/
inductive ImageLoaderStatus where
  | Loaded (data : Nat) : ImageLoaderStatus
  | Waiting : ImageLoaderStatus
  | Error : ImageLoaderStatus
deriving DecidableEq, Repr

/-- A calloop timer as built by `Surface`: either `Timer::from_duration(d)`
or `Timer::immediate()`. -/
inductive TimerSpec where
  | fromDuration (d : Nat) : TimerSpec
  | immediate : TimerSpec
deriving DecidableEq, Repr

/-- calloop's `TimeoutAction`, returned by the rotation timer callback. -/
inductive TimeoutAction where
  | Drop : TimeoutAction
  | ToDuration (d : Nat) : TimeoutAction
deriving DecidableEq, Repr

/-- Calls made to external collaborators, in program order.  Wayland surface
calls (`frame`, `commit`, `damage_buffer`), GPU/renderer calls, image-picker
mutations, and timer-registry operations. -/
inductive Effect where
  | makeCurrent : Effect
  | resetContext : Effect
  | commit : Effect
  | frame : Effect
  | damageBuffer (w h : Int) : Effect
  | rendererDraw : Effect
  | clearAfterDraw : Effect
  | swapBuffers : Effect
  | rendererLoad (data : Nat) : Effect
  | startTransition (transition_time : Nat) : Effect
  | transitionFinished : Effect
  | updateTransitionStatus (time : Nat) : Effect
  | updateTransition : Effect
  | updateTransitionTime (t : Nat) : Effect
  | setMode : Effect
  | timerRegister (t : TimerSpec) (token : Nat) : Effect
  | timerCancel (token : Nat) : Effect
  | pickerNextImage : Effect
  | pickerUpdateCurrent (path : String) (index : Nat) : Effect
  | pickerReloaded : Effect
  | pickerUpdateSorting (sorting : Nat) : Effect
  | pickerUpdateQueueSize (n : Nat) : Effect
deriving DecidableEq, Repr

/-- Modelled from the spec: the image picker (its source file is not part of
`src/`) "holds current image identity, selection policy, and the instant the
current image was set".  The fields the `Surface` code reads and writes:
`current_image` (`ImagePicker::current_image`), `reloading`
(`ImagePicker::is_reloading` / `reloaded`), and `image_changed_instant`. -/
structure ImagePicker where
  current_image : String
  current_index : Nat
  reloading : Bool
  image_changed_instant : Nat
deriving DecidableEq, Repr

/-- Modelled from the spec: the renderer (external capability surface,
`render.rs` is not part of `src/`) "owns transition progress"; the `Surface`
code only branches on `Renderer::transition_running()`, which we keep as a
Bool.  `start_transition` marks a transition as running;
`update_transition_status` overwrites the flag with its (oracle) result. -/
structure Renderer where
  transition_running : Bool
deriving DecidableEq, Repr

/-- Modelled from the spec: the per-surface configuration snapshot
(`wallpaper_info.rs` is not part of `src/`): "path (image source selection),
mode/offset (fit/placement), transition (effect descriptor), transition_time
(effect duration), duration (rotation period, optional), sorting (selection
order policy), drawn_images_queue_size (history length), initial_transition".
Opaque field types are abstracted to `Nat`. -/
structure WallpaperInfo where
  path : String
  duration : Option Nat
  mode : Nat
  offset : Nat
  transition : Nat
  transition_time : Nat
  sorting : Nat
  drawn_images_queue_size : Nat
  initial_transition : Bool
deriving DecidableEq, Repr

/-- The mutable state of `Surface` that the functions under scrutiny read or
write.  `adjusted_width`/`adjusted_height` stand for the display-info
geometry snapshot taken at the top of `draw`. -/
structure Surface where
  renderer : Renderer
  image_picker : ImagePicker
  event_source : EventSource
  wallpaper_info : WallpaperInfo
  adjusted_width : Int
  adjusted_height : Int
  window_drawn : Bool
  loading_image : Option (String × Nat)
  loading_image_tries : Nat
  skip_next_transition : Bool
  should_pause : Bool
deriving DecidableEq, Repr

/-- Results of the external queries a single call branches on:
`pick` is what `ImagePicker::get_image_from_path` returns,
`stillRunning` is what `Renderer::update_transition_status` returns,
`now` is the monotonic clock reading (`Instant::now`). -/
structure Env where
  pick : Option (String × Nat)
  stillRunning : Bool
  now : Nat
deriving DecidableEq, Repr

/-- Rust `Duration - Duration`: panics on underflow, modelled as `none`. -/
def duration_sub (a b : Nat) : Option Nat :=
  if b ≤ a then some (a - b) else none

/-- `remaining_duration` from `surface.rs` with every Rust arithmetic step
made explicit: `diff = image_changed.elapsed()`; if
`duration.saturating_sub(diff).is_zero()` return `None`, else return
`Some(duration - diff)` where `-` is the panicking `Duration` subtraction.
The outer `none` means a panic occurred. -/
def remaining_duration_checked (duration image_changed now : Nat) :
    Option (Option Nat) :=
  let diff := now - image_changed
  if duration - diff = 0 then some none
  else (duration_sub duration diff).map some

/-- `remaining_duration` from `surface.rs` as a total function (the form the
rest of the development uses; `remaining_duration_checked_eq` proves the
panicking subtraction never fires, so the two agree). -/
def remaining_duration (duration image_changed now : Nat) : Option Nat :=
  let diff := now - image_changed
  if duration - diff = 0 then none else some (duration - diff)

/-- The head of each `Surface::load_wallpaper` loop iteration: if no load is
in flight, ask the picker (`get_image_from_path`) for a target; `none` means
the loop breaks with `true` right here (picker has nothing to do, or reports
the already-current image outside a forced reload); `some` is the adopted
in-flight `(path, index)` together with the updated state. -/
def load_target (s : Surface) (env : Env) : Option (Surface × String × Nat) :=
  match s.loading_image with
  | some (p, i) => some (s, p, i)
  | none =>
    match env.pick with
    | some (p, i) =>
      if s.image_picker.current_image = p ∧ s.image_picker.reloading = false
      then none
      else some ({ s with loading_image := some (p, i) }, p, i)
    | none => none

/-- The body of a `Surface::load_wallpaper` iteration once a decoder answer
`status` for the in-flight target `(image_path, index)` is available.
`inl` is a loop break carrying `(state, effects, result)`; `inr` is the
`Error` fall-through that loops back with the updated state. -/
def load_step (s : Surface) (env : Env) (image_path : String) (index : Nat)
    (status : ImageLoaderStatus) :
    (Surface × List Effect × Bool) ⊕ Surface :=
  match status with
  | .Loaded data =>
    let transition_time :=
      if s.skip_next_transition then 0 else s.wallpaper_info.transition_time
    let s := { s with skip_next_transition := false }
    let (s, pickerEffs) :=
      if s.image_picker.reloading then
        ({ s with image_picker := { s.image_picker with reloading := false } },
         [Effect.pickerReloaded])
      else
        ({ s with
             image_picker :=
               { s.image_picker with
                   current_image := image_path,
                   current_index := index,
                   image_changed_instant := env.now },
             renderer := { transition_running := true } },
         [Effect.pickerUpdateCurrent image_path index,
          Effect.startTransition transition_time])
    .inl ({ s with loading_image_tries := 0, loading_image := none },
          [Effect.makeCurrent, Effect.rendererLoad data] ++ pickerEffs, true)
  | .Waiting => .inl (s, [], false)
  | .Error =>
    .inr { s with
             loading_image_tries := (s.loading_image_tries + 1) % 2 ^ 8,
             loading_image := none }

/-- `Surface::load_wallpaper`: the bounded image-load/retry loop.
Returns `(state, effects, result, remaining decoder answers)`; the Bool is
the `Ok(..)` payload (`true` = the surface has a displayable image, `false` =
still waiting on the async decode).  One `ImageLoaderStatus` is consumed per
`background_load` call; `none` means the supplied list ran out mid-loop. -/
def load_wallpaper (s : Surface) (env : Env) :
    List ImageLoaderStatus →
    Option (Surface × List Effect × Bool × List ImageLoaderStatus)
  | [] =>
    match load_target s env with
    | none => some (s, [], true, [])
    | some (s, _, _) =>
      if s.renderer.transition_running then some (s, [], true, []) else none
  | status :: rest =>
    match load_target s env with
    | none => some (s, [], true, status :: rest)
    | some (s, image_path, index) =>
      if s.renderer.transition_running then some (s, [], true, status :: rest)
      else
        match load_step s env image_path index status with
        | .inl (s, effs, result) => some (s, effs, result, rest)
        | .inr s =>
          if s.loading_image_tries = 5 then some (s, [], true, rest)
          else load_wallpaper s env rest

/-- The unconditional tail of `Surface::draw`: GPU draw, clear transient
draw state, swap buffers, reset the GL context, damage the whole surface
with the pre-snapshotted dimensions, and commit. -/
def gpu_effects (w h : Int) : List Effect :=
  [Effect.rendererDraw, Effect.clearAfterDraw, Effect.swapBuffers,
   Effect.resetContext, Effect.damageBuffer w h, Effect.commit]

/-- `Surface::draw(qh, time)`.  Snapshots the adjusted dimensions, makes the
EGL context current, progresses the load pipeline, then branches on the
transition state exactly as the source does.  `env.stillRunning` is the
value `Renderer::update_transition_status` returns. -/
def draw (s : Surface) (env : Env) (time : Option Nat)
    (statuses : List ImageLoaderStatus) :
    Option (Surface × List Effect × List ImageLoaderStatus) :=
  let width := s.adjusted_width
  let height := s.adjusted_height
  match load_wallpaper s env statuses with
  | none => none
  | some (s, loadEffs, wallpaper_loaded, rest) =>
    let effs := Effect.makeCurrent :: loadEffs
    if s.renderer.transition_running then
      -- Recalculate the current progress, the transition might end now
      let s := { s with renderer := { transition_running := env.stillRunning } }
      let effs := effs ++ [Effect.updateTransitionStatus (time.getD 0)]
      if env.stillRunning then
        -- Don't call queue_draw as it calls load_wallpaper again
        some (s, effs ++ [Effect.frame] ++ gpu_effects width height, rest)
      else
        some (s, effs ++ [Effect.transitionFinished] ++ gpu_effects width height,
              rest)
    else if wallpaper_loaded = false then
      let effs := effs ++ [Effect.frame]
      if s.window_drawn then
        -- We need to call commit, otherwise the call to frame above
        -- doesn't work -- and return early
        some (s, effs ++ [Effect.commit], rest)
      else
        some (s, effs ++ gpu_effects width height, rest)
    else
      some (s, effs ++ gpu_effects width height, rest)

/-- `Surface::queue_draw`: start loading the next image immediately (errors
are logged and ignored), then request a frame callback and commit. -/
def queue_draw (s : Surface) (env : Env) (statuses : List ImageLoaderStatus) :
    Option (Surface × List Effect × List ImageLoaderStatus) :=
  match load_wallpaper s env statuses with
  | none => none
  | some (s, effs, _, rest) =>
    some (s, effs ++ [Effect.frame, Effect.commit], rest)

/-- `Surface::get_remaining_duration`. -/
def get_remaining_duration (s : Surface) (now : Nat) : Option Nat :=
  match s.wallpaper_info.duration with
  | none => none
  | some duration =>
    remaining_duration duration s.image_picker.image_changed_instant now

/-- `Surface::add_timer`: no-op if a timer is already `Running` or no
rotation duration is configured; otherwise registers either the supplied
timer or `Timer::from_duration(duration)` with the registry and records
`Running(token)`.  `token` is the registry's next fresh registration token;
the returned `Nat` is the next fresh token after this call. -/
def add_timer (s : Surface) (timer : Option TimerSpec) (token : Nat) :
    Surface × List Effect × Nat :=
  match s.event_source with
  | .Running _ => (s, [], token)
  | _ =>
    match s.wallpaper_info.duration with
    | none => (s, [], token)
    | some duration =>
      let t := timer.getD (TimerSpec.fromDuration duration)
      ({ s with event_source := .Running token },
       [Effect.timerRegister t token], token + 1)

/-- The rotation-timer callback registered by `Surface::add_timer`, run at
the instant `env.now` after the surface has been looked up by name.  If the
configured duration has not fully elapsed since `image_changed_instant`
(the image was changed externally after the timer was armed), reschedule for
exactly the remaining slice; otherwise advance to the next image, queue a
redraw, and reschedule for a full period. -/
def timer_callback (s : Surface) (env : Env)
    (statuses : List ImageLoaderStatus) :
    Option (Surface × List Effect × TimeoutAction × List ImageLoaderStatus) :=
  match s.wallpaper_info.duration with
  | none => some (s, [], .Drop, statuses)
  | some duration =>
    match remaining_duration duration s.image_picker.image_changed_instant
        env.now with
    | some remaining_time => some (s, [], .ToDuration remaining_time, statuses)
    | none =>
      -- Change the drawn image: picker.next_image, then queue_draw
      match queue_draw s env statuses with
      | none => none
      | some (s, effs, rest) =>
        some (s, Effect.pickerNextImage :: effs, .ToDuration duration, rest)

/-- `Surface::handle_pause_state`: reconcile `should_pause` against
`event_source`. -/
def handle_pause_state (s : Surface) (now : Nat) (token : Nat) :
    Surface × List Effect × Nat :=
  match s.should_pause, s.event_source with
  -- Should pause, but timer is still currently running
  | true, .Running registration_token =>
    let rem := (get_remaining_duration s now).getD 0
    ({ s with event_source := .Paused rem },
     [Effect.timerCancel registration_token], token)
  -- Should resume, but timer is not currently running
  | false, .Paused duration =>
    add_timer s (some (.fromDuration duration)) token
  -- Otherwise no update is necessary
  | _, _ => (s, [], token)

/-- `Surface::pause`: record the intent to pause.  The empty effect list
makes explicit that no timer-registry call happens here. -/
def pause (s : Surface) : Surface × List Effect :=
  ({ s with should_pause := true }, [])

/-- `Surface::resume`: record the intent to resume. -/
def resume (s : Surface) : Surface × List Effect :=
  ({ s with should_pause := false }, [])

/-- `Surface::toggle_pause`. -/
def toggle_pause (s : Surface) : Surface × List Effect :=
  if s.should_pause then resume s else pause s

/-- `Surface::update_wallpaper_info`: the configuration diff-and-apply step.
Consumes decoder answers when a branch redraws (`queue_draw` on a path
change, `draw` on a mode/offset change); `token` is the registry's next
fresh registration token. -/
def update_wallpaper_info (s : Surface) (new : WallpaperInfo) (env : Env)
    (token : Nat) (statuses : List ImageLoaderStatus) :
    Option (Surface × List Effect × Nat × List ImageLoaderStatus) :=
  if s.wallpaper_info = new then some (s, [], token, statuses)
  else
    -- std::mem::swap: `new` goes into the surface, `old` is the local copy
    let old := s.wallpaper_info
    let s := { s with wallpaper_info := new }
    let path_changed : Bool := decide (new.path ≠ old.path)
    let effs0 := [Effect.pickerUpdateSorting new.sorting]
    -- path changed: ask the image_picker to pick a new image and queue a draw
    let step1 : Option (Surface × List Effect × List ImageLoaderStatus) :=
      if path_changed then
        match queue_draw s env statuses with
        | none => none
        | some (s, effs, rest) =>
          some (s, Effect.pickerNextImage :: effs, rest)
      else some (s, [], statuses)
    match step1 with
    | none => none
    | some (s, effs1, statuses) =>
      -- duration changed
      let step2 : Option (Surface × List Effect × Nat) :=
        if new.duration = old.duration then some (s, [], token)
        else
          match new.duration, old.duration with
          | none, none => none  -- unreachable! in the source: a panic
          -- There was a duration before but now it has been removed
          | none, some _ =>
            match s.event_source with
            | .Running registration_token =>
              -- the source removes the registration but leaves
              -- `event_source` untouched
              some (s, [Effect.timerCancel registration_token], token)
            | _ => some (s, [], token)
          -- There wasn't a duration before but now it has been added
          -- or it has changed
          | some new_duration, _ =>
            let (cancelEffs : List Effect) :=
              match s.event_source with
              | .Running registration_token =>
                [Effect.timerCancel registration_token]
              | _ => []
            let timer :=
              match path_changed,
                  remaining_duration new_duration
                    s.image_picker.image_changed_instant env.now with
              | false, some remaining_time => TimerSpec.fromDuration remaining_time
              | _, _ => TimerSpec.immediate
            let s := { s with event_source := .NotSet }
            let (s, addEffs, token) := add_timer s (some timer) token
            some (s, cancelEffs ++ addEffs, token)
      match step2 with
      | none => none
      | some (s, effs2, token) =>
        -- mode or offset changed
        let step3 : Option (Surface × List Effect × List ImageLoaderStatus) :=
          if new.mode = old.mode ∧ new.offset = old.offset then
            some (s, [], statuses)
          else
            let effs := [Effect.makeCurrent, Effect.setMode]
            if path_changed then some (s, effs, statuses)
            else
              -- We should draw immediately
              match draw s env none statuses with
              | none => none
              | some (s, drawEffs, rest) => some (s, effs ++ drawEffs, rest)
        match step3 with
        | none => none
        | some (s, effs3, statuses) =>
          let effs4 :=
            if new.transition = old.transition then []
            else [Effect.makeCurrent, Effect.updateTransition]
          let effs5 :=
            if new.drawn_images_queue_size = old.drawn_images_queue_size then []
            else [Effect.pickerUpdateQueueSize new.drawn_images_queue_size]
          let effs6 :=
            if new.transition_time = old.transition_time then []
            else [Effect.updateTransitionTime new.transition_time]
          some (s, effs0 ++ effs1 ++ effs2 ++ effs3 ++ effs4 ++ effs5 ++ effs6,
                token, statuses)

/-- All fields of `t` other than `should_pause` agree with those of `s`. -/
def agrees_except_pause (s t : Surface) : Prop :=
  t.renderer = s.renderer ∧ t.image_picker = s.image_picker ∧
  t.event_source = s.event_source ∧ t.wallpaper_info = s.wallpaper_info ∧
  t.adjusted_width = s.adjusted_width ∧ t.adjusted_height = s.adjusted_height ∧
  t.window_drawn = s.window_drawn ∧ t.loading_image = s.loading_image ∧
  t.loading_image_tries = s.loading_image_tries ∧
  t.skip_next_transition = s.skip_next_transition

/-- Every `startTransition` effect in the list carries transition time `t0`. -/
def startTransitionsUse (effs : List Effect) (t0 : Nat) : Bool :=
  effs.all fun e =>
    match e with
    | .startTransition t => t == t0
    | _ => true

/-- Shared concrete fixture: a configuration snapshot. -/
def wiA : WallpaperInfo :=
  { path := "p", duration := some 10, mode := 0, offset := 0, transition := 0,
    transition_time := 300, sorting := 0, drawn_images_queue_size := 10,
    initial_transition := true }

/-- Shared concrete fixture: a surface showing `"old"`, rotation timer
registered under token 3, no load in flight. -/
def surfA : Surface :=
  { renderer := ⟨false⟩,
    image_picker :=
      { current_image := "old", current_index := 0, reloading := false,
        image_changed_instant := 0 },
    event_source := .Running 3,
    wallpaper_info := wiA,
    adjusted_width := 1920, adjusted_height := 1080,
    window_drawn := false,
    loading_image := none, loading_image_tries := 0,
    skip_next_transition := false, should_pause := false }

/-- Shared concrete fixture: the picker proposes `"/img/a.png"` as entry 3. -/
def envA : Env := { pick := some ("/img/a.png", 3), stillRunning := true, now := 50 }

/-- C9: `remaining_duration` is total and never underflows: the variant in
which the Rust `Duration` subtraction is modelled as panicking on underflow
(`remaining_duration_checked`) always returns (no panic) and agrees with the
total function, which yields `none` exactly when the elapsed time `now -
image_changed` has reached `duration`, and `some (duration - elapsed)`
otherwise. -/
theorem c9_remaining_duration_total (duration image_changed now : Nat) :
    remaining_duration_checked duration image_changed now =
      some (remaining_duration duration image_changed now) ∧
    remaining_duration duration image_changed now =
      (if duration ≤ now - image_changed then none
       else some (duration - (now - image_changed))) := by
  simp only [remaining_duration_checked, remaining_duration, duration_sub]
  constructor
  · split
    · rfl
    · rename_i h
      rw [if_pos (by omega)]
      rfl
  · split
    · rename_i h
      rw [if_pos (by omega)]
    · rename_i h
      rw [if_neg (by omega)]

/-- C8: `pause`, `resume` and `toggle_pause` modify only the `should_pause`
intent flag: every other surface field is unchanged, and no timer-registry
registration or cancellation (indeed no external effect at all) occurs. -/
theorem c8_pause_resume_toggle_frame (s : Surface) :
    (pause s).2 = [] ∧ (resume s).2 = [] ∧ (toggle_pause s).2 = [] ∧
    agrees_except_pause s (pause s).1 ∧
    agrees_except_pause s (resume s).1 ∧
    agrees_except_pause s (toggle_pause s).1 ∧
    (pause s).1.should_pause = true ∧
    (resume s).1.should_pause = false ∧
    (toggle_pause s).1.should_pause = !s.should_pause := by
  cases h : s.should_pause <;>
    simp [pause, resume, toggle_pause, agrees_except_pause, h]

/-- C10: resuming while rotation is unconfigured does not clear the `Paused`
state: with `should_pause = false`, `event_source = Paused r` and no
configured duration, `handle_pause_state` leaves the surface unchanged and
registers no timer (`add_timer` returns early without a configured
duration). -/
theorem c10_resume_without_duration (s : Surface) (now token r : Nat)
    (h1 : s.should_pause = false) (h2 : s.event_source = .Paused r)
    (h3 : s.wallpaper_info.duration = none) :
    handle_pause_state s now token = (s, [], token) := by
  unfold handle_pause_state add_timer
  rw [h1, h2, h3]

/-- C10 witness: the theorem applied to the concrete fixture paused with 7
units remaining and no configured duration. -/
theorem c10_resume_without_duration_witness :
    handle_pause_state
      { surfA with event_source := .Paused 7,
                   wallpaper_info := { wiA with duration := none } } 55 100 =
      ({ surfA with event_source := .Paused 7,
                    wallpaper_info := { wiA with duration := none } }, [], 100) :=
  c10_resume_without_duration _ 55 100 7 rfl rfl rfl

/-- Concrete fixture for C5: resume intent while `Paused(7)` with no
configured rotation duration. -/
def c5s : Surface :=
  { surfA with should_pause := false, event_source := .Paused 7,
               wallpaper_info := { wiA with duration := none } }

/-- C5 counterexample: the claim says that whenever `should_pause` is false
and `event_source` is `Paused(remaining)`, `handle_pause_state` re-arms a
one-shot timer for exactly `remaining`.  At this concrete state (paused with
7 remaining, rotation duration unconfigured) no timer is registered at all:
the call is a no-op, because `add_timer` returns early without a configured
duration. -/
theorem c5_counterexample :
    c5s.should_pause = false ∧ c5s.event_source = .Paused 7 ∧
    handle_pause_state c5s 55 100 = (c5s, [], 100) ∧
    Effect.timerRegister (.fromDuration 7) 100 ∉
      (handle_pause_state c5s 55 100).2.1 := by
  decide

/-- C5 (amended): `handle_pause_state` reconciles `should_pause` against
`event_source`: if pause is requested while `Running(rt)`, it cancels `rt`
and transitions to `Paused(remaining)`; if resume is requested while
`Paused(d)` and a rotation duration is configured, it re-arms a one-shot
timer for exactly `d`; if resume is requested while `Paused(d)` but no
rotation duration is configured, nothing changes; in all other combinations
it changes nothing; and calling it twice with no intervening state change
yields no second transition and no further effects (idempotence). -/
theorem c5_handle_pause_state_reconciles (s : Surface) (now now' token : Nat) :
    (∀ rt, s.should_pause = true → s.event_source = .Running rt →
      handle_pause_state s now token =
        ({ s with event_source :=
             .Paused ((get_remaining_duration s now).getD 0) },
         [Effect.timerCancel rt], token)) ∧
    (∀ d D, s.should_pause = false → s.event_source = .Paused d →
      s.wallpaper_info.duration = some D →
      handle_pause_state s now token =
        ({ s with event_source := .Running token },
         [Effect.timerRegister (.fromDuration d) token], token + 1)) ∧
    (∀ d, s.should_pause = false → s.event_source = .Paused d →
      s.wallpaper_info.duration = none →
      handle_pause_state s now token = (s, [], token)) ∧
    (s.event_source = .NotSet →
      handle_pause_state s now token = (s, [], token)) ∧
    (∀ d, s.should_pause = true → s.event_source = .Paused d →
      handle_pause_state s now token = (s, [], token)) ∧
    (∀ rt, s.should_pause = false → s.event_source = .Running rt →
      handle_pause_state s now token = (s, [], token)) ∧
    (handle_pause_state (handle_pause_state s now token).1 now'
        (handle_pause_state s now token).2.2 =
      ((handle_pause_state s now token).1, [],
       (handle_pause_state s now token).2.2)) := by
  cases hp : s.should_pause <;> cases hes : s.event_source <;>
    cases hd : s.wallpaper_info.duration <;>
    simp [handle_pause_state, add_timer, get_remaining_duration, hp, hes, hd]

/-- Concrete fixture for the C5 witness: pause requested while the rotation
timer is registered under token 3. -/
def c5w : Surface := { surfA with should_pause := true }

/-- C5 witness: the amended theorem's pause case applied to `c5w`. -/
theorem c5_handle_pause_state_witness :
    handle_pause_state c5w 55 100 =
      ({ c5w with event_source :=
           .Paused ((get_remaining_duration c5w 55).getD 0) },
       [Effect.timerCancel 3], 100) :=
  (c5_handle_pause_state_reconciles c5w 55 60 100).1 3 rfl rfl

/-- C6: rotation correctness of the timer callback.  With duration `D`
configured, armed at `t0` and firing at `env.now = t0 + D`: if the image was
changed externally at `t` with `t0 < t ≤ env.now` (so less than a full
period has elapsed since `image_changed_instant`), the callback does not
advance the image (no effects at all) and reschedules for exactly the
remaining slice, so the next fire time is `env.now + remaining = t + D`, not
`t0 + D`.  Only when the full duration has elapsed since
`image_changed_instant` does it advance to the next image (picker advance
plus redraw) and reschedule for a full period `D`. -/
theorem c6_timer_reschedules_after_manual_change (s : Surface) (env : Env)
    (sts : List ImageLoaderStatus) (D t0 : Nat)
    (hD : s.wallpaper_info.duration = some D) :
    (t0 < s.image_picker.image_changed_instant →
      s.image_picker.image_changed_instant ≤ env.now →
      env.now = t0 + D →
      timer_callback s env sts =
        some (s, [],
          .ToDuration (D - (env.now - s.image_picker.image_changed_instant)),
          sts) ∧
      env.now + (D - (env.now - s.image_picker.image_changed_instant)) =
        s.image_picker.image_changed_instant + D) ∧
    (s.image_picker.image_changed_instant + D ≤ env.now →
      ∀ q qe qr, queue_draw s env sts = some (q, qe, qr) →
      timer_callback s env sts =
        some (q, Effect.pickerNextImage :: qe, .ToDuration D, qr)) := by
  constructor
  · intro h1 h2 h3
    have hrem : remaining_duration D s.image_picker.image_changed_instant
        env.now =
        some (D - (env.now - s.image_picker.image_changed_instant)) := by
      unfold remaining_duration
      rw [if_neg (by omega)]
    constructor
    · simp only [timer_callback, hD, hrem]
    · omega
  · intro h1 q qe qr hq
    have hrem : remaining_duration D s.image_picker.image_changed_instant
        env.now = none := by
      unfold remaining_duration
      rw [if_pos (by omega)]
    simp only [timer_callback, hD, hrem, hq]

/-- Concrete fixture for the C6 witness: duration 10, timer armed at `t0 = 0`
(so it fires at `now = 10`), image manually changed at `t = 6`. -/
def c6s : Surface :=
  { surfA with image_picker :=
      { surfA.image_picker with image_changed_instant := 6 } }

/-- C6 witness: at the fixture, the callback advances nothing and
reschedules for the 6 remaining units, so the next fire is at `6 + 10`. -/
theorem c6_timer_reschedules_witness :
    timer_callback c6s { envA with now := 10 } [] =
      some (c6s, [],
        .ToDuration
          (10 - (({ envA with now := 10 } : Env).now -
            c6s.image_picker.image_changed_instant)), []) ∧
    ({ envA with now := 10 } : Env).now +
        (10 - (({ envA with now := 10 } : Env).now -
          c6s.image_picker.image_changed_instant)) =
      c6s.image_picker.image_changed_instant + 10 :=
  (c6_timer_reschedules_after_manual_change c6s { envA with now := 10 } [] 10 0
      rfl).1 (by decide) (by decide) (by decide)

/-- C2 counterexample: the claim says that after the decoder returns `Error`
five times in a row, `loading_image_tries` is reset to 0.  At this concrete
state (surface on `"old"`, picker proposing `"/img/a.png"`) five consecutive
`Error` answers leave `loading_image_tries` at 5, not 0: the counter is only
reset by a successful load. -/
theorem c2_counterexample :
    load_wallpaper surfA envA [.Error, .Error, .Error, .Error, .Error] =
      some ({ surfA with loading_image := none, loading_image_tries := 5 },
        [], true, []) ∧
    ({ surfA with loading_image := none, loading_image_tries := 5
       } : Surface).loading_image_tries ≠ 0 := by
  decide

/-- C2 (amended): for every in-flight load target, if the background decoder
returns `Error` five times in a row, `load_wallpaper` returns `true`, makes
no external calls, the displayed image (the picker state, including
`current_image`) is unchanged, `loading_image` is `None`, and
`loading_image_tries` ends at the cap 5 (it is not reset to 0; the reset
happens only on a successful load). -/
theorem c2_five_errors_abandon (s : Surface) (env : Env) (p : String) (i : Nat)
    (h0 : s.loading_image = none) (h1 : s.loading_image_tries = 0)
    (h2 : s.renderer.transition_running = false)
    (h3 : env.pick = some (p, i))
    (h4 : s.image_picker.current_image ≠ p) :
    load_wallpaper s env [.Error, .Error, .Error, .Error, .Error] =
      some ({ s with loading_image := none, loading_image_tries := 5 },
        [], true, []) ∧
    ({ s with loading_image := none, loading_image_tries := 5
       } : Surface).image_picker = s.image_picker := by
  refine ⟨?_, rfl⟩
  simp [load_wallpaper, load_target, load_step, h0, h1, h2, h3, h4]

/-- C2 witness: the amended theorem applied to the shared fixture. -/
theorem c2_five_errors_abandon_witness :
    load_wallpaper surfA envA [.Error, .Error, .Error, .Error, .Error] =
      some ({ surfA with loading_image := none, loading_image_tries := 5 },
        [], true, []) ∧
    ({ surfA with loading_image := none, loading_image_tries := 5
       } : Surface).image_picker = surfA.image_picker :=
  c2_five_errors_abandon surfA envA "/img/a.png" 3 rfl rfl rfl rfl
    (by decide)

/-- `load_target` only ever adopts an in-flight target: every field other
than `loading_image` is unchanged. -/
theorem load_target_frame (s : Surface) (env : Env) (s₂ : Surface)
    (p : String) (i : Nat) (h : load_target s env = some (s₂, p, i)) :
    s₂.skip_next_transition = s.skip_next_transition ∧
    s₂.wallpaper_info = s.wallpaper_info ∧
    s₂.image_picker = s.image_picker ∧
    s₂.renderer = s.renderer ∧
    s₂.window_drawn = s.window_drawn ∧
    s₂.loading_image_tries = s.loading_image_tries ∧
    s₂.adjusted_width = s.adjusted_width ∧
    s₂.adjusted_height = s.adjusted_height := by
  unfold load_target at h
  split at h
  · rename_i p' i' hp
    simp only [Option.some.injEq, Prod.mk.injEq] at h
    obtain ⟨h1, -, -⟩ := h
    subst h1
    simp
  · split at h
    · split at h
      · exact absurd h (by simp)
      · simp only [Option.some.injEq, Prod.mk.injEq] at h
        obtain ⟨h1, -, -⟩ := h
        subst h1
        simp
    · exact absurd h (by simp)

/-- C7: the `skip_next_transition` flag is one-shot.  Across any
`load_wallpaper` call: if the flag is clear it stays clear and every
transition started uses the configured transition time; if the flag is set,
either no load completed (the flag is still set and no external call was
made) or the one completing load consumed it — the transition delay passed
to the renderer is 0 and the flag is clear afterwards, so every later
successful load uses the configured transition time. -/
theorem c7_skip_next_transition_one_shot (sts : List ImageLoaderStatus)
    (env : Env) :
    ∀ (s s' : Surface) (effs : List Effect) (b : Bool)
      (rest : List ImageLoaderStatus),
      load_wallpaper s env sts = some (s', effs, b, rest) →
      (s.skip_next_transition = false →
        s'.skip_next_transition = false ∧
        startTransitionsUse effs s.wallpaper_info.transition_time = true) ∧
      (s.skip_next_transition = true →
        (s'.skip_next_transition = true ∧ effs = []) ∨
        (s'.skip_next_transition = false ∧
         startTransitionsUse effs 0 = true)) := by
  induction sts with
  | nil =>
    intro s s' effs b rest h
    unfold load_wallpaper at h
    cases ht : load_target s env with
    | none =>
      rw [ht] at h
      simp only [Option.some.injEq, Prod.mk.injEq] at h
      obtain ⟨h1, h2, -, -⟩ := h
      subst h1
      subst h2
      simp [startTransitionsUse]
    | some trip =>
      obtain ⟨s₂, p, i⟩ := trip
      rw [ht] at h
      dsimp only at h
      split at h
      · simp only [Option.some.injEq, Prod.mk.injEq] at h
        obtain ⟨h1, h2, -, -⟩ := h
        subst h1
        subst h2
        have hf := load_target_frame s env s₂ p i ht
        simp [startTransitionsUse, hf.1]
      · exact absurd h (by simp)
  | cons status rest' ih =>
    intro s s' effs b rest h
    unfold load_wallpaper at h
    cases ht : load_target s env with
    | none =>
      rw [ht] at h
      simp only [Option.some.injEq, Prod.mk.injEq] at h
      obtain ⟨h1, h2, -, -⟩ := h
      subst h1
      subst h2
      simp [startTransitionsUse]
    | some trip =>
      obtain ⟨s₂, p, i⟩ := trip
      rw [ht] at h
      dsimp only at h
      have hf := load_target_frame s env s₂ p i ht
      split at h
      · simp only [Option.some.injEq, Prod.mk.injEq] at h
        obtain ⟨h1, h2, -, -⟩ := h
        subst h1
        subst h2
        simp [startTransitionsUse, hf.1]
      · cases status with
        | Loaded data =>
          simp only [load_step] at h
          by_cases hr : s₂.image_picker.reloading
          · rw [if_pos hr] at h
            simp only [Option.some.injEq, Prod.mk.injEq] at h
            obtain ⟨h1, h2, -, -⟩ := h
            subst h1
            subst h2
            simp [startTransitionsUse, hf.1]
          · rw [if_neg hr] at h
            simp only [Option.some.injEq, Prod.mk.injEq] at h
            obtain ⟨h1, h2, -, -⟩ := h
            subst h1
            subst h2
            cases hs : s.skip_next_transition <;>
              simp [startTransitionsUse, hf.1, hf.2.1, hs]
        | Waiting =>
          simp only [load_step] at h
          simp only [Option.some.injEq, Prod.mk.injEq] at h
          obtain ⟨h1, h2, -, -⟩ := h
          subst h1
          subst h2
          simp [startTransitionsUse, hf.1]
        | Error =>
          simp only [load_step] at h
          split at h
          · simp only [Option.some.injEq, Prod.mk.injEq] at h
            obtain ⟨h1, h2, -, -⟩ := h
            subst h1
            subst h2
            simp [startTransitionsUse, hf.1]
          · have := ih _ s' effs b rest h
            simpa [hf.1, hf.2.1] using this

/-- Concrete fixture for the C7 witness: the shared surface with
`skip_next_transition` set. -/
def c7s : Surface := { surfA with skip_next_transition := true }

/-- The state after `c7s` successfully loads `"/img/a.png"` at `envA.now`. -/
def c7out : Surface :=
  { surfA with
      renderer := ⟨true⟩,
      image_picker :=
        { current_image := "/img/a.png", current_index := 3,
          reloading := false, image_changed_instant := 50 } }

/-- The effects of that successful load: the consumed flag makes the started
transition use delay 0. -/
def c7effs : List Effect :=
  [.makeCurrent, .rendererLoad 7, .pickerUpdateCurrent "/img/a.png" 3,
   .startTransition 0]

/-- C7 witness: the theorem applied to a single successful load with the
flag set — the flag is consumed and the transition delay is 0. -/
theorem c7_skip_next_transition_witness :
    (c7out.skip_next_transition = true ∧ c7effs = []) ∨
    (c7out.skip_next_transition = false ∧
     startTransitionsUse c7effs 0 = true) :=
  (c7_skip_next_transition_one_shot [.Loaded 7] envA c7s c7out c7effs true []
      (by decide)).2 rfl

/-- The state after `surfA` adopts the picker's proposal as its in-flight
load target. -/
def c1out : Surface := { surfA with loading_image := some ("/img/a.png", 3) }

/-- The effects of `draw` on `surfA` when the decoder is still `Waiting` and
no first draw has completed: the GPU draw/swap/damage steps all happen. -/
def c1effs : List Effect :=
  [.makeCurrent, .frame, .rendererDraw, .clearAfterDraw, .swapBuffers,
   .resetContext, .damageBuffer 1920 1080, .commit]

/-- C1 counterexample: the claim says that with no transition running, no
image loaded this call, and `window_drawn = false`, `draw` registers a frame
callback, issues a bare commit and returns early without the GPU
draw/swap/damage steps.  At this concrete input (exactly that situation) the
GPU draw is performed: `draw` only returns early when `window_drawn` is
`true`. -/
theorem c1_counterexample :
    surfA.window_drawn = false ∧
    surfA.renderer.transition_running = false ∧
    draw surfA envA none [.Waiting] = some (c1out, c1effs, []) ∧
    Effect.rendererDraw ∈ c1effs ∧ Effect.swapBuffers ∈ c1effs ∧
    Effect.damageBuffer 1920 1080 ∈ c1effs := by
  decide

/-- C1 (amended): for every call to `draw` in which no transition is running,
`load_wallpaper` returned `false` (no displayable image yet), and the surface
HAS already completed a first draw (`window_drawn` is true), `draw` registers
a frame callback, issues a bare commit, and returns early: the effect list
ends right after the commit, with no GPU draw/swap/damage steps and no state
change beyond the load attempt. -/
theorem c1_first_draw_gate (s : Surface) (env : Env) (time : Option Nat)
    (sts : List ImageLoaderStatus) (s' : Surface) (effsL : List Effect)
    (rest : List ImageLoaderStatus)
    (h : load_wallpaper s env sts = some (s', effsL, false, rest))
    (h1 : s'.renderer.transition_running = false)
    (h2 : s'.window_drawn = true) :
    draw s env time sts =
      some (s', Effect.makeCurrent :: (effsL ++ [Effect.frame, Effect.commit]),
        rest) := by
  simp only [draw, h, h1, h2]
  simp

/-- Concrete fixture for the C1 witness: the shared surface after its first
completed draw. -/
def c1w : Surface := { surfA with window_drawn := true }

/-- `c1w` after adopting the picker's proposal as in-flight target. -/
def c1wout : Surface :=
  { surfA with window_drawn := true, loading_image := some ("/img/a.png", 3) }

/-- C1 witness: the amended theorem at a concrete decoder-`Waiting` call. -/
theorem c1_first_draw_gate_witness :
    draw c1w envA none [.Waiting] =
      some (c1wout, [Effect.makeCurrent, Effect.frame, Effect.commit], []) :=
  c1_first_draw_gate c1w envA none [.Waiting] c1wout [] [] (by decide)
    (by decide) (by decide)

/-- When a transition is running at entry, `load_wallpaper` defers: it
breaks with `true` immediately (consuming no decoder answers and producing
no effects), at most adopting an in-flight target. -/
theorem load_wallpaper_transition_running (sts : List ImageLoaderStatus)
    (s : Surface) (env : Env) (h : s.renderer.transition_running = true) :
    ∃ s₂, load_wallpaper s env sts = some (s₂, [], true, sts) ∧
      s₂.renderer = s.renderer ∧ s₂.window_drawn = s.window_drawn ∧
      s₂.adjusted_width = s.adjusted_width ∧
      s₂.adjusted_height = s.adjusted_height := by
  cases sts with
  | nil =>
    cases ht : load_target s env with
    | none =>
      refine ⟨s, ?_, rfl, rfl, rfl, rfl⟩
      unfold load_wallpaper
      rw [ht]
    | some trip =>
      obtain ⟨s₂, p, i⟩ := trip
      have hf := load_target_frame s env s₂ p i ht
      refine ⟨s₂, ?_, hf.2.2.2.1, hf.2.2.2.2.1, hf.2.2.2.2.2.2.1,
        hf.2.2.2.2.2.2.2⟩
      unfold load_wallpaper
      rw [ht]
      dsimp only
      rw [if_pos (by rw [hf.2.2.2.1]; exact h)]
  | cons status rest' =>
    cases ht : load_target s env with
    | none =>
      refine ⟨s, ?_, rfl, rfl, rfl, rfl⟩
      unfold load_wallpaper
      rw [ht]
    | some trip =>
      obtain ⟨s₂, p, i⟩ := trip
      have hf := load_target_frame s env s₂ p i ht
      refine ⟨s₂, ?_, hf.2.2.2.1, hf.2.2.2.2.1, hf.2.2.2.2.2.2.1,
        hf.2.2.2.2.2.2.2⟩
      unfold load_wallpaper
      rw [ht]
      dsimp only
      rw [if_pos (by rw [hf.2.2.2.1]; exact h)]

/-- Concrete fixture for C4: the shared surface with a running transition. -/
def c4s : Surface := { surfA with renderer := ⟨true⟩ }

/-- `c4s` after `draw` (the load loop adopted the picker's proposal before
deferring to the running transition). -/
def c4out : Surface :=
  { surfA with renderer := ⟨true⟩, loading_image := some ("/img/a.png", 3) }

/-- The effects of `draw` on `c4s` when the transition is still running:
frame callback plus the full GPU draw of the transition frame. -/
def c4effs : List Effect :=
  [.makeCurrent, .updateTransitionStatus 7, .frame, .rendererDraw,
   .clearAfterDraw, .swapBuffers, .resetContext, .damageBuffer 1920 1080,
   .commit]

/-- C4 counterexample: the claim says that when a transition is running and
still running after recomputing its progress, `draw` registers a frame
callback and returns without drawing.  At this concrete input the frame
callback is registered AND the GPU draw, buffer swap and commit are all
still performed — there is no early return on this path. -/
theorem c4_counterexample :
    c4s.renderer.transition_running = true ∧ envA.stillRunning = true ∧
    draw c4s envA (some 7) [] = some (c4out, c4effs, []) ∧
    Effect.frame ∈ c4effs ∧ Effect.rendererDraw ∈ c4effs ∧
    Effect.commit ∈ c4effs := by
  decide

/-- C4 (amended): in every call to `draw` where a transition is currently
running (so the load loop defers with no effects), `draw` recomputes the
transition progress with the frame time; if still running it registers a
compositor frame callback (and does not finalize), and if it just completed
it finalizes the transition via `transition_finished` (and registers no
frame callback); in both cases it then proceeds with the normal GPU
draw/swap/damage/commit of the current frame rather than returning early. -/
theorem c4_transition_progress (s : Surface) (env : Env) (time : Option Nat)
    (sts : List ImageLoaderStatus) (s₂ : Surface)
    (h : s.renderer.transition_running = true)
    (hl : load_wallpaper s env sts = some (s₂, [], true, sts)) :
    (env.stillRunning = true →
      draw s env time sts =
        some ({ s₂ with renderer := ⟨true⟩ },
          [Effect.makeCurrent, Effect.updateTransitionStatus (time.getD 0),
           Effect.frame] ++
            gpu_effects s.adjusted_width s.adjusted_height, sts)) ∧
    (env.stillRunning = false →
      draw s env time sts =
        some ({ s₂ with renderer := ⟨false⟩ },
          [Effect.makeCurrent, Effect.updateTransitionStatus (time.getD 0),
           Effect.transitionFinished] ++
            gpu_effects s.adjusted_width s.adjusted_height, sts)) := by
  obtain ⟨s₃, hl', hr, -, -, -⟩ := load_wallpaper_transition_running sts s env h
  rw [hl] at hl'
  simp only [Option.some.injEq, Prod.mk.injEq] at hl'
  obtain ⟨h1, -, -⟩ := hl'
  subst h1
  have hrun : s₂.renderer.transition_running = true := by rw [hr]; exact h
  constructor <;> intro hsr <;> simp [draw, hl, hrun, hsr]

/-- C4 witness: the amended theorem's completion case at a concrete input —
the transition just ended, so it is finalized and the frame drawn. -/
theorem c4_transition_progress_witness :
    draw c4s { envA with stillRunning := false } (some 7) [] =
      some ({ c4out with renderer := ⟨false⟩ },
        [Effect.makeCurrent, Effect.updateTransitionStatus 7,
         Effect.transitionFinished] ++
          gpu_effects c4s.adjusted_width c4s.adjusted_height, []) :=
  (c4_transition_progress c4s { envA with stillRunning := false } (some 7) []
      c4out rfl (by decide)).2 rfl

/-- The shared configuration with the rotation duration removed. -/
def c3new : WallpaperInfo := { wiA with duration := none }

/-- `surfA` after the config reload that removed the duration: note
`event_source` is still `Running 3`. -/
def c3out : Surface := { surfA with wallpaper_info := c3new }

/-- C3 counterexample: the claim says that removing the configured duration
while `event_source` is `Running(token)` cancels the token AND makes
`event_source` become `NotSet`.  At this concrete input the token is
canceled but `event_source` remains `Running 3`: the `(None, Some(_))`
match arm of the source never resets `event_source`. -/
theorem c3_counterexample :
    surfA.event_source = .Running 3 ∧
    update_wallpaper_info surfA c3new envA 100 [] =
      some (c3out,
        [Effect.pickerUpdateSorting 0, Effect.timerCancel 3], 100, []) ∧
    c3out.event_source = .Running 3 ∧ c3out.event_source ≠ .NotSet := by
  decide

/-- C3 (amended): for every call to `update_wallpaper_info` that changes the
configured duration from `Some(d)` to `None` (other fields unchanged) while
`event_source` is `Running(token)`, the timer token is canceled, but
`event_source` is left unchanged — it remains `Running(token)` rather than
becoming `NotSet`. -/
theorem c3_duration_removed (s : Surface) (env : Env) (token : Nat)
    (sts : List ImageLoaderStatus) (rt d : Nat)
    (hd : s.wallpaper_info.duration = some d)
    (he : s.event_source = .Running rt) :
    update_wallpaper_info s { s.wallpaper_info with duration := none } env
        token sts =
      some
        ({ s with
             wallpaper_info := { s.wallpaper_info with duration := none } },
         [Effect.pickerUpdateSorting s.wallpaper_info.sorting,
          Effect.timerCancel rt], token, sts) ∧
    ({ s with wallpaper_info := { s.wallpaper_info with duration := none } }
        : Surface).event_source = .Running rt := by
  have hne : ¬(s.wallpaper_info =
      { s.wallpaper_info with duration := none }) := by
    intro hh
    have hdd := congrArg WallpaperInfo.duration hh
    rw [hd] at hdd
    simp at hdd
  constructor
  · simp [update_wallpaper_info, hne, hd, he]
  · simp [he]

/-- C3 witness: the amended theorem at the shared fixture. -/
theorem c3_duration_removed_witness :
    update_wallpaper_info surfA { surfA.wallpaper_info with duration := none }
        envA 100 [] =
      some
        ({ surfA with
             wallpaper_info := { surfA.wallpaper_info with duration := none } },
         [Effect.pickerUpdateSorting surfA.wallpaper_info.sorting,
          Effect.timerCancel 3], 100, []) ∧
    ({ surfA with
         wallpaper_info := { surfA.wallpaper_info with duration := none } }
        : Surface).event_source = .Running 3 :=
  c3_duration_removed surfA envA 100 [] 3 10 rfl rfl

end Wpaperd
